import Mathlib

/-!
Verification of the PinkSync front-end translation-session pipeline.

The definitions below are a shallow embedding of the session code in
src/components/sign-language-demo.tsx and src/contexts/websocket-context.tsx:
React state shows up as explicit record fields, the socket.io handlers and
the component callbacks become pure state-transition functions, and network
effects (socket emissions, the HTTP response) are made explicit as data.
-/

namespace PinkSync

/-- TranslationResult as declared in sign-language-demo.tsx: text, a numeric
confidence in the unit interval (a JSON number, embedded as a rational since
the session code only stores it), and the features-detected flag. -/
structure TranslationResult where
  text : String
  confidence : Rat
  features_detected : Bool
deriving DecidableEq, Repr

/-- An incoming socket message as seen by handleMessage. The handler receives
an untyped JSON object and reads only the fields type, data and message;
absent fields are embedded as none. The session_id field models an identity
tag a server could attach to a message: the handler never reads it, which is
exactly what the foreign-result claims are about. -/
structure Message where
  type : String
  data : Option TranslationResult
  message : Option String
  session_id : Option Nat
deriving DecidableEq, Repr

/-- The React state of the SignLanguageDemo component, plus an explicit
record of the recorder objects the component creates. recordedChunks holds
opaque chunk identifiers; mediaRecorderRef is the identifier held by the
component ref; runningRecorders lists every MediaRecorder that has been
started and not stopped (the browser keeps such recorders running whether or
not any ref still points at them). -/
structure DemoState where
  isRecording : Bool
  isProcessing : Bool
  translationResult : Option TranslationResult
  error : Option String
  recordedChunks : List Nat
  mediaRecorderRef : Option Nat
  runningRecorders : List Nat
deriving DecidableEq, Repr

/-- handleMessage from sign-language-demo.tsx lines 39 to 49: a
translation_result message stores its data and clears the processing flag, a
partial_translation message stores its data only, an error message stores
its message text and clears the processing flag, and anything else is
ignored. No field other than type, data and message is consulted. -/
def handleMessage (s : DemoState) (m : Message) : DemoState :=
  if m.type = "translation_result" then
    { s with translationResult := m.data, isProcessing := false }
  else if m.type = "partial_translation" then
    { s with translationResult := m.data }
  else if m.type = "error" then
    { s with error := m.message, isProcessing := false }
  else
    s

/-- Delivering a list of messages to the component in order. -/
def runMessages (s : DemoState) (ms : List Message) : DemoState :=
  ms.foldl handleMessage s

/-- A sample result value used by concrete witnesses. -/
def sampleResult : TranslationResult :=
  { text := "hello world", confidence := 1, features_detected := true }

/-- A second sample result value used by concrete witnesses. -/
def sampleInterim : TranslationResult :=
  { text := "hello", confidence := 0, features_detected := false }

/-- A demo state that is awaiting a result: not recording, processing set,
no projection, no error. -/
def awaitingState : DemoState :=
  { isRecording := false, isProcessing := true, translationResult := none,
    error := none, recordedChunks := [0, 1, 2], mediaRecorderRef := some 0,
    runningRecorders := [] }

/-- Shape of handleMessage on a partial_translation message: only the
projection changes. -/
theorem handleMessage_interim (t : DemoState) (m : Message)
    (h : m.type = "partial_translation") :
    handleMessage t m = { t with translationResult := m.data } := by
  simp [handleMessage, h]

/-- Shape of handleMessage on a translation_result message: the projection is
overwritten and the processing flag cleared. -/
theorem handleMessage_final (t : DemoState) (m : Message)
    (h : m.type = "translation_result") :
    handleMessage t m = { t with translationResult := m.data, isProcessing := false } := by
  simp [handleMessage, h]

/-- C1 counterexample: the claim says a result message tagged with a session
identity other than the active one leaves the projection and processing flag
unchanged. With active identity 0, a translation_result message tagged with
identity 1 nevertheless overwrites the projection and clears the flag:
handleMessage never reads the tag. -/
theorem C1_foreign_result_applied :
    (({ type := "translation_result", data := some sampleResult,
        message := none, session_id := some 1 } : Message).session_id ≠ some 0) ∧
    (handleMessage awaitingState
        { type := "translation_result", data := some sampleResult,
          message := none, session_id := some 1 }).translationResult
      ≠ awaitingState.translationResult ∧
    (handleMessage awaitingState
        { type := "translation_result", data := some sampleResult,
          message := none, session_id := some 1 }).isProcessing
      ≠ awaitingState.isProcessing := by
  refine ⟨by decide, ?_, by decide⟩
  simp [handleMessage, awaitingState]

/-- C1 amended: handleMessage performs no session-identity check at all.
Whatever identity tag a result message carries, even one different from any
given active identity, the message data is applied to the projection and a
final message clears the processing flag: foreign and stale results are
applied, not dropped. -/
theorem C1_no_identity_filter (s : DemoState) (m : Message) (active : Nat)
    (hty : m.type = "translation_result") (hforeign : m.session_id ≠ some active) :
    (handleMessage s m).translationResult = m.data ∧
    (handleMessage s m).isProcessing = false := by
  rw [handleMessage_final s m hty]
  exact ⟨rfl, rfl⟩

/-- Witness for C1_no_identity_filter at a concrete foreign-tagged message. -/
theorem C1_no_identity_filter_witness :
    (handleMessage awaitingState
        { type := "translation_result", data := some sampleResult,
          message := none, session_id := some 1 }).translationResult
      = some sampleResult ∧
    (handleMessage awaitingState
        { type := "translation_result", data := some sampleResult,
          message := none, session_id := some 1 }).isProcessing = false :=
  C1_no_identity_filter awaitingState
    { type := "translation_result", data := some sampleResult,
      message := none, session_id := some 1 } 0 (by decide) (by decide)

/-- C2: delivering any list of partial_translation messages followed by one
translation_result message, all tagged with the active session identity,
leaves the projection equal to the final message data with the processing
flag cleared, whatever the partials were; and each partial message, applied
to any state, replaces the projection while leaving the processing flag
untouched. -/
theorem C2_final_projection (active : Nat) (s : DemoState)
    (ps : List Message) (fm : Message)
    (hp : ∀ m ∈ ps, m.type = "partial_translation" ∧ m.session_id = some active)
    (hf : fm.type = "translation_result") (hfs : fm.session_id = some active) :
    (runMessages s (ps ++ [fm])).translationResult = fm.data ∧
    (runMessages s (ps ++ [fm])).isProcessing = false ∧
    (∀ m ∈ ps, ∀ t : DemoState,
        (handleMessage t m).translationResult = m.data ∧
        (handleMessage t m).isProcessing = t.isProcessing) := by
  have hsplit : runMessages s (ps ++ [fm]) = handleMessage (runMessages s ps) fm := by
    simp [runMessages]
  rw [hsplit, handleMessage_final _ _ hf]
  refine ⟨rfl, rfl, ?_⟩
  intro m hm t
  rw [handleMessage_interim t m (hp m hm).1]
  exact ⟨rfl, rfl⟩

/-- Witness for C2_final_projection: one partial then the final, both tagged
with active identity 0, ends with the final data projected and the flag
cleared. -/
theorem C2_final_projection_witness :
    (runMessages awaitingState
        ([{ type := "partial_translation", data := some sampleInterim,
            message := none, session_id := some 0 }] ++
         [{ type := "translation_result", data := some sampleResult,
            message := none, session_id := some 0 }])).translationResult
      = some sampleResult ∧
    (runMessages awaitingState
        ([{ type := "partial_translation", data := some sampleInterim,
            message := none, session_id := some 0 }] ++
         [{ type := "translation_result", data := some sampleResult,
            message := none, session_id := some 0 }])).isProcessing = false := by
  have h := C2_final_projection 0 awaitingState
    [{ type := "partial_translation", data := some sampleInterim,
       message := none, session_id := some 0 }]
    { type := "translation_result", data := some sampleResult,
      message := none, session_id := some 0 }
    (by decide) (by decide) (by decide)
  exact ⟨h.1, h.2.1⟩

/-- startRecording from sign-language-demo.tsx lines 58 to 84. If the webcam
ref has no stream the call returns immediately. Otherwise it clears the
error and the projection, resets the shared chunk buffer, constructs a fresh
MediaRecorder (modelled by the identifier newRec), stores it in the ref,
starts it, and sets the recording flag. The function contains no check of
isRecording or isProcessing, and it never calls stop on the recorder the ref
held before, so that recorder stays in runningRecorders. -/
def startRecording (s : DemoState) (hasStream : Bool) (newRec : Nat) : DemoState :=
  if hasStream then
    { s with error := none, translationResult := none, recordedChunks := [],
             mediaRecorderRef := some newRec,
             runningRecorders := newRec :: s.runningRecorders,
             isRecording := true }
  else
    s

/-- stopRecording from sign-language-demo.tsx lines 86 to 92. Only when the
ref holds a recorder and the recording flag is set: the referenced recorder
is stopped (its onstop then assembles the chunks and calls processVideo),
the recording flag is cleared and the processing flag is set. In any other
state, in particular while awaiting a result, the call does nothing. -/
def stopRecording (s : DemoState) : DemoState :=
  match s.mediaRecorderRef with
  | some r =>
    if s.isRecording then
      { s with runningRecorders := s.runningRecorders.erase r,
               isRecording := false, isProcessing := true }
    else
      s
  | none => s

/-- A demo state in which recorder 0 is live: recording in progress. -/
def recordingState : DemoState :=
  { isRecording := true, isProcessing := false, translationResult := none,
    error := none, recordedChunks := [0], mediaRecorderRef := some 0,
    runningRecorders := [0] }

/-- C3 counterexample: the claim says starting a session while one is active
either fails with AlreadyActive or cancels the prior session, and no two
sessions proceed concurrently. Calling startRecording in recordingState,
where recorder 0 is live, neither fails (the error field is cleared to none,
not set) nor cancels recorder 0 (it is still running), and afterwards the
two recorders 1 and 0 are running concurrently. -/
theorem C3_no_double_session_guard :
    recordingState.isRecording = true ∧
    (startRecording recordingState true 1).error = none ∧
    (startRecording recordingState true 1).runningRecorders = [1, 0] ∧
    (startRecording recordingState true 1).isRecording = true := by
  decide

/-- C3 amended: startRecording has no already-active guard at all. Called
with a live stream in any state, including one with an active session, it
clears the error and projection, installs and starts a fresh recorder, and
leaves every previously running recorder running: the prior session is
neither rejected with AlreadyActive nor cancelled, and concurrent recorders
result. -/
theorem C3_start_ignores_active (s : DemoState) (newRec : Nat)
    (hactive : s.isRecording = true) :
    (startRecording s true newRec).error = none ∧
    (startRecording s true newRec).mediaRecorderRef = some newRec ∧
    (startRecording s true newRec).runningRecorders = newRec :: s.runningRecorders ∧
    (startRecording s true newRec).isRecording = true := by
  simp [startRecording]

/-- Witness for C3_start_ignores_active at the concrete recording state. -/
theorem C3_start_ignores_active_witness :
    (startRecording recordingState true 1).error = none ∧
    (startRecording recordingState true 1).mediaRecorderRef = some 1 ∧
    (startRecording recordingState true 1).runningRecorders = 1 :: recordingState.runningRecorders ∧
    (startRecording recordingState true 1).isRecording = true :=
  C3_start_ignores_active recordingState 1 (by decide)

/-- C6 counterexample: the claim says a cancel operation exists and, invoked
in any non-idle state, returns the manager to Idle without emitting a
result. The only stop-like operation is stopRecording. Invoked in the
non-idle awaiting-result state it is a no-op that leaves the processing flag
set, and invoked in the non-idle recording state it sets the processing flag
rather than returning to idle: in neither non-idle state does it reach an
idle state. -/
theorem C6_no_cancel_to_idle :
    (awaitingState.isProcessing = true ∧
     stopRecording awaitingState = awaitingState) ∧
    (recordingState.isRecording = true ∧
     (stopRecording recordingState).isProcessing = true) := by
  decide

/-- C6 amended: the code has no cancel operation. stopRecording, invoked
while recording with a recorder in the ref, clears the recording flag and
sets the processing flag, entering the awaiting-result phase whose in-flight
work later updates the projection through handleMessage; invoked when the
recording flag is clear, in particular in the awaiting-result state, it
changes nothing, so no operation returns a non-idle state to idle. -/
theorem C6_stop_is_not_cancel (s : DemoState) (r : Nat)
    (href : s.mediaRecorderRef = some r) :
    (s.isRecording = true →
      (stopRecording s).isRecording = false ∧
      (stopRecording s).isProcessing = true) ∧
    (s.isRecording = false → stopRecording s = s) := by
  constructor
  · intro hrec
    simp [stopRecording, href, hrec]
  · intro hrec
    simp [stopRecording, href, hrec]

/-- Witness for C6_stop_is_not_cancel at the concrete recording state. -/
theorem C6_stop_is_not_cancel_witness :
    (recordingState.isRecording = true →
      (stopRecording recordingState).isRecording = false ∧
      (stopRecording recordingState).isProcessing = true) ∧
    (recordingState.isRecording = false → stopRecording recordingState = recordingState) :=
  C6_stop_is_not_cancel recordingState 0 (by decide)

/-- The request body built by processVideo and processVideoHTTP. -/
structure RequestPayload where
  video_data : String
  source_language : String
  target_language : String
deriving DecidableEq, Repr

/-- A network send performed by the session: either a message pushed over the
streaming socket channel, or one HTTP request on the fallback channel. -/
inductive SendAction
  | streamSend (type : String) (payload : RequestPayload)
  | httpSend (payload : RequestPayload)
deriving DecidableEq, Repr

/-- processVideo from sign-language-demo.tsx lines 94 to 118, after the
FileReader has produced the base64 payload: the connectivity flag is read
once, and the payload is sent as a single translation_request over the
socket when connected, otherwise handed to processVideoHTTP as a single
HTTP request. The function returns the list of sends it performs. -/
def processVideo (isConnected : Bool) (base64data : String) : List SendAction :=
  if isConnected then
    [SendAction.streamSend "translation_request"
      { video_data := base64data, source_language := "ASL", target_language := "en" }]
  else
    [SendAction.httpSend
      { video_data := base64data, source_language := "ASL", target_language := "en" }]

/-- C4: the transport is selected exactly once per session: processVideo
performs exactly one send, over the streaming channel when the connectivity
flag is set and over the fallback HTTP channel otherwise; no other code path
sends, so the choice is never re-evaluated or switched mid-session. -/
theorem C4_channel_selected_once (c : Bool) (d : String) :
    (processVideo c d).length = 1 ∧
    (c = true → processVideo c d =
      [SendAction.streamSend "translation_request"
        { video_data := d, source_language := "ASL", target_language := "en" }]) ∧
    (c = false → processVideo c d =
      [SendAction.httpSend
        { video_data := d, source_language := "ASL", target_language := "en" }]) := by
  cases c <;> simp [processVideo]

/-- Witness for C4_channel_selected_once on a connected session. -/
theorem C4_channel_selected_once_witness :
    (processVideo true "v").length = 1 ∧
    processVideo true "v" =
      [SendAction.streamSend "translation_request"
        { video_data := "v", source_language := "ASL", target_language := "en" }] :=
  ⟨(C4_channel_selected_once true "v").1,
   (C4_channel_selected_once true "v").2.1 rfl⟩

/-- Outcome of the single fallback HTTP call made by processVideoHTTP: a
successful response with a parsed body, a response with a non-success
status (the code then throws and lands in its catch), or a network-level
rejection of the fetch itself (also caught). -/
inductive HTTPOutcome
  | success (body : TranslationResult)
  | badStatus
  | networkFailure
deriving DecidableEq, Repr

/-- True on the two failure outcomes of the fallback HTTP call. -/
def HTTPOutcome.isFailure : HTTPOutcome → Bool
  | .success _ => false
  | .badStatus => true
  | .networkFailure => true

/-- The fixed message stored by the catch block of processVideoHTTP. -/
def serviceUnavailableMsg : String :=
  "Translation service unavailable. Please try again."

/-- processVideoHTTP from sign-language-demo.tsx lines 120 to 146: on a
successful response the parsed body is assigned to the projection, once; on
a non-success status or a network failure the catch block stores the fixed
error message and the projection is not touched; the finally block clears
the processing flag on every path. No partial results can arise here. -/
def processVideoHTTP (s : DemoState) (o : HTTPOutcome) : DemoState :=
  match o with
  | .success body => { s with translationResult := some body, isProcessing := false }
  | .badStatus => { s with error := some serviceUnavailableMsg, isProcessing := false }
  | .networkFailure => { s with error := some serviceUnavailableMsg, isProcessing := false }

/-- C5: the fallback path yields exactly one result treated as final: on a
successful response the projection is assigned exactly once, from the single
response body, with no error recorded; on a failure outcome the projection
is left untouched and the session ends in the error state; the processing
flag is cleared on every path, so no partial ever arises on this path. -/
theorem C5_http_single_final (s : DemoState) (o : HTTPOutcome) :
    (processVideoHTTP s o).isProcessing = false ∧
    (∀ body, o = HTTPOutcome.success body →
        (processVideoHTTP s o).translationResult = some body ∧
        (processVideoHTTP s o).error = s.error) ∧
    (o.isFailure = true →
        (processVideoHTTP s o).translationResult = s.translationResult ∧
        (processVideoHTTP s o).error = some serviceUnavailableMsg) := by
  cases o <;> simp [processVideoHTTP, HTTPOutcome.isFailure]

/-- Witness for C5_http_single_final on a successful call and a failed one. -/
theorem C5_http_single_final_witness :
    (processVideoHTTP awaitingState (HTTPOutcome.success sampleResult)).isProcessing = false ∧
    (processVideoHTTP awaitingState (HTTPOutcome.success sampleResult)).translationResult
      = some sampleResult ∧
    (processVideoHTTP awaitingState HTTPOutcome.badStatus).translationResult
      = awaitingState.translationResult ∧
    (processVideoHTTP awaitingState HTTPOutcome.badStatus).error
      = some serviceUnavailableMsg :=
  ⟨(C5_http_single_final awaitingState (HTTPOutcome.success sampleResult)).1,
   ((C5_http_single_final awaitingState (HTTPOutcome.success sampleResult)).2.1
      sampleResult rfl).1,
   ((C5_http_single_final awaitingState HTTPOutcome.badStatus).2.2 rfl).1,
   ((C5_http_single_final awaitingState HTTPOutcome.badStatus).2.2 rfl).2⟩

/-- An event the demo component can observe while awaiting a result: an
incoming socket message dispatched to its handler, or a tick, the passage of
one unit of time with no message. The component registers handleMessage as
its only transition out of the awaiting phase and sets no timer anywhere, so
a tick is handled by no code at all. -/
inductive Event
  | incoming (m : Message)
  | tick
deriving DecidableEq, Repr

/-- One scheduling step of the demo component: an incoming message runs
handleMessage; a tick runs nothing, because no timeout or timer is
registered in the source. -/
def demoStep (s : DemoState) (e : Event) : DemoState :=
  match e with
  | .incoming m => handleMessage s m
  | .tick => s

/-- Time alone never moves the demo state: any number of ticks without a
message is the identity. -/
theorem foldl_tick_fixed (n : Nat) (s : DemoState) :
    (List.replicate n Event.tick).foldl demoStep s = s := by
  induction n with
  | zero => rfl
  | succ k ih =>
    rw [List.replicate_succ, List.foldl_cons]
    exact ih

/-- C7 counterexample: the claim says the wait for a result is bounded and
that on expiry the session fails with Timeout. Starting from the concrete
awaiting-result state and letting 3600 ticks pass, two orders of magnitude
past the 30 second bound the spec recommends, with no message received, the
session is still processing and no failure has been recorded. -/
theorem C7_no_timeout_fires :
    ((List.replicate 3600 Event.tick).foldl demoStep awaitingState).isProcessing = true ∧
    ((List.replicate 3600 Event.tick).foldl demoStep awaitingState).error = none := by
  rw [foldl_tick_fixed 3600 awaitingState]
  exact ⟨rfl, rfl⟩

/-- C7 amended: the code implements no timeout at all. In the
awaiting-result state, the passage of any amount of time without a message
leaves the state exactly unchanged, still processing and with no failure
recorded; the awaiting phase ends only when handleMessage receives a result
or error message, or the fallback HTTP call completes. -/
theorem C7_wait_unbounded (n : Nat) (s : DemoState) (h : s.isProcessing = true) :
    (List.replicate n Event.tick).foldl demoStep s = s ∧
    ((List.replicate n Event.tick).foldl demoStep s).isProcessing = true := by
  have hfix := foldl_tick_fixed n s
  exact ⟨hfix, by rw [hfix]; exact h⟩

/-- Witness for C7_wait_unbounded at the concrete awaiting state. -/
theorem C7_wait_unbounded_witness :
    (List.replicate 100 Event.tick).foldl demoStep awaitingState = awaitingState ∧
    ((List.replicate 100 Event.tick).foldl demoStep awaitingState).isProcessing = true :=
  C7_wait_unbounded 100 awaitingState rfl

/-- The state of the WebSocketProvider in websocket-context.tsx: whether the
socket object exists, the connectivity flag, and the set of registered
message callbacks (a JS Set held in a ref, embedded as a finite set of
callback identifiers). -/
structure WSState where
  socketPresent : Bool
  isConnected : Bool
  messageCallbacks : Finset Nat
deriving DecidableEq

/-- The connect handler from websocket-context.tsx lines 34 to 37: sets the
connectivity flag. -/
def onConnect (w : WSState) : WSState :=
  { w with isConnected := true }

/-- The disconnect handler from websocket-context.tsx lines 39 to 42: clears
the connectivity flag, and does nothing else. -/
def onDisconnect (w : WSState) : WSState :=
  { w with isConnected := false }

/-- The provider state together with the demo component state it serves. -/
structure AppState where
  ws : WSState
  demo : DemoState
deriving DecidableEq

/-- Connection loss as the application sees it: the provider disconnect
handler runs; no demo-component code runs, since the component subscribes
only to message dispatch. -/
def appOnDisconnect (a : AppState) : AppState :=
  { a with ws := onDisconnect a.ws }

/-- A connected application awaiting a result, with callback 0 registered. -/
def awaitingApp : AppState :=
  { ws := { socketPresent := true, isConnected := true, messageCallbacks := {0} },
    demo := awaitingState }

/-- The fixed message stored when camera permission is denied,
sign-language-demo.tsx line 36. -/
def cameraPermissionMsg : String :=
  "Camera permission required for sign language recognition"

/-- The catch branch of the permission request in sign-language-demo.tsx
lines 33 to 36: stores the fixed error message; no other field changes. -/
def permissionDenied (s : DemoState) : DemoState :=
  { s with error := some cameraPermissionMsg }

/-- The fixed message stored by the catch block of processVideo,
sign-language-demo.tsx line 115. -/
def processVideoFailureMsg : String := "Failed to process video"

/-- The catch block of processVideo, sign-language-demo.tsx lines 114 to
117: stores the fixed error message and clears the processing flag. -/
def processVideoFailure (s : DemoState) : DemoState :=
  { s with error := some processVideoFailureMsg, isProcessing := false }

/-- C8 counterexample: the claim says connection loss on the streaming
channel is surfaced as an error. In the concrete connected awaiting-result
application, the disconnect handler only clears the connectivity flag: the
demo state is untouched, so no error is recorded, no result is produced,
and the session is left processing with nothing surfaced. -/
theorem C8_disconnect_not_surfaced :
    (appOnDisconnect awaitingApp).demo.error = none ∧
    (appOnDisconnect awaitingApp).demo.isProcessing = true ∧
    (appOnDisconnect awaitingApp).demo = awaitingApp.demo ∧
    (appOnDisconnect awaitingApp).ws.isConnected = false := by
  exact ⟨rfl, rfl, rfl, rfl⟩

/-- C8 amended: each handled error path is caught and surfaced in the error
field: a streaming error message stores its message text and clears the
processing flag without touching the projection; both fallback HTTP failure
outcomes store the fixed service message and clear the flag; permission
denial stores the fixed camera message; a processing failure stores its
fixed message and clears the flag. Connection loss, however, is surfaced
neither as an error nor as a result: the disconnect handler only clears the
connectivity flag and leaves the demo state unchanged. -/
theorem C8_errors_caught (s : DemoState) (m : Message) (a : AppState)
    (herr : m.type = "error") :
    ((handleMessage s m).error = m.message ∧
     (handleMessage s m).isProcessing = false ∧
     (handleMessage s m).translationResult = s.translationResult) ∧
    ((processVideoHTTP s HTTPOutcome.badStatus).error = some serviceUnavailableMsg ∧
     (processVideoHTTP s HTTPOutcome.badStatus).isProcessing = false) ∧
    ((processVideoHTTP s HTTPOutcome.networkFailure).error = some serviceUnavailableMsg ∧
     (processVideoHTTP s HTTPOutcome.networkFailure).isProcessing = false) ∧
    (permissionDenied s).error = some cameraPermissionMsg ∧
    ((processVideoFailure s).error = some processVideoFailureMsg ∧
     (processVideoFailure s).isProcessing = false) ∧
    ((appOnDisconnect a).demo = a.demo ∧
     (appOnDisconnect a).ws.isConnected = false) := by
  refine ⟨?_, ?_, ?_, ?_, ?_, ?_⟩
  · simp [handleMessage, herr]
  · exact ⟨rfl, rfl⟩
  · exact ⟨rfl, rfl⟩
  · rfl
  · exact ⟨rfl, rfl⟩
  · exact ⟨rfl, rfl⟩

/-- Witness for C8_errors_caught at a concrete error message and the
concrete connected awaiting application. -/
theorem C8_errors_caught_witness :
    ((handleMessage awaitingState
        { type := "error", data := none, message := some "bad video",
          session_id := none }).error = some "bad video" ∧
     (handleMessage awaitingState
        { type := "error", data := none, message := some "bad video",
          session_id := none }).isProcessing = false) ∧
    (appOnDisconnect awaitingApp).demo = awaitingApp.demo := by
  have h := C8_errors_caught awaitingState
    { type := "error", data := none, message := some "bad video",
      session_id := none } awaitingApp (by decide)
  exact ⟨⟨h.1.1, h.1.2.1⟩, h.2.2.2.2.2.1⟩

/-- A message emitted to the socket by sendMessage: the payload of the emit
call, an object holding the caller type tag and data. -/
structure EmittedMsg where
  type : String
  data : RequestPayload
deriving DecidableEq, Repr

/-- sendMessage from websocket-context.tsx lines 58 to 62: only when the
socket object exists and the connectivity flag is set does it emit one
message; otherwise the guard fails and the body does nothing. The function
returns the unchanged provider state and the list of emissions. -/
def sendMessage (w : WSState) (t : String) (d : RequestPayload) :
    WSState × List EmittedMsg :=
  if w.socketPresent && w.isConnected then
    (w, [{ type := t, data := d }])
  else
    (w, [])

/-- C9: a sendMessage call made while the socket is absent or the connection
is down is a silent no-op: the provider state is unchanged and nothing is
emitted, so no error or failure is surfaced and the request is dropped. -/
theorem C9_send_silent_noop (w : WSState) (t : String) (d : RequestPayload)
    (h : w.socketPresent = false ∨ w.isConnected = false) :
    sendMessage w t d = (w, []) := by
  rcases h with h | h <;> simp [sendMessage, h]

/-- A provider state whose connection is down, with callback 0 registered. -/
def offlineWS : WSState :=
  { socketPresent := true, isConnected := false, messageCallbacks := {0} }

/-- Witness for C9_send_silent_noop at the concrete offline provider. -/
theorem C9_send_silent_noop_witness :
    sendMessage offlineWS "translation_request"
        { video_data := "v", source_language := "ASL", target_language := "en" }
      = (offlineWS, []) :=
  C9_send_silent_noop offlineWS "translation_request"
    { video_data := "v", source_language := "ASL", target_language := "en" }
    (Or.inr rfl)

/-- onMessage from websocket-context.tsx lines 64 to 66: adds the callback
to the Set held in the ref. -/
def onMessage (w : WSState) (c : Nat) : WSState :=
  { w with messageCallbacks := insert c w.messageCallbacks }

/-- offMessage from websocket-context.tsx lines 68 to 70: deletes the
callback from the Set held in the ref. -/
def offMessage (w : WSState) (c : Nat) : WSState :=
  { w with messageCallbacks := w.messageCallbacks.erase c }

/-- The socket message handler from websocket-context.tsx lines 44 to 46
invokes every callback currently in the Set: this is the set of callbacks an
incoming message reaches. -/
def dispatchTargets (w : WSState) : Finset Nat :=
  w.messageCallbacks

/-- A provider state in which callback 0 is already registered. -/
def subscribedWS : WSState :=
  { socketPresent := true, isConnected := true, messageCallbacks := {0} }

/-- C10 counterexample: the claim says onMessage on an already-registered
callback leaves the registry unchanged and that offMessage after onMessage
restores the prior registry. The two parts cannot both hold on a set: with
callback 0 already registered, onMessage 0 is indeed a no-op, so the
following offMessage 0 deletes the pre-existing registration and the
registry ends empty, not restored to its prior state. -/
theorem C10_off_not_inverse_when_registered :
    0 ∈ subscribedWS.messageCallbacks ∧
    (offMessage (onMessage subscribedWS 0) 0).messageCallbacks
      ≠ subscribedWS.messageCallbacks := by
  decide

/-- C10 amended: the registry is a set: onMessage is idempotent; offMessage
after onMessage restores the prior registry provided the callback was not
already registered, while on an already-registered callback the pair ends
with the callback removed; and after offMessage the callback is not among
the targets an incoming message is dispatched to. -/
theorem C10_registry_set_semantics (w : WSState) (c : Nat) :
    onMessage (onMessage w c) c = onMessage w c ∧
    (c ∉ w.messageCallbacks → offMessage (onMessage w c) c = w) ∧
    (c ∈ w.messageCallbacks →
        (offMessage (onMessage w c) c).messageCallbacks = w.messageCallbacks.erase c) ∧
    c ∉ dispatchTargets (offMessage w c) := by
  refine ⟨?_, ?_, ?_, ?_⟩
  · simp [onMessage, Finset.insert_idem]
  · intro h
    simp [onMessage, offMessage, Finset.erase_insert h]
  · intro h
    simp [onMessage, offMessage, Finset.insert_eq_self.mpr h]
  · simp [offMessage, dispatchTargets]

/-- Witness for C10_registry_set_semantics at a fresh callback on the
subscribed provider. -/
theorem C10_registry_set_semantics_witness :
    onMessage (onMessage subscribedWS 1) 1 = onMessage subscribedWS 1 ∧
    offMessage (onMessage subscribedWS 1) 1 = subscribedWS ∧
    1 ∉ dispatchTargets (offMessage subscribedWS 1) := by
  have h := C10_registry_set_semantics subscribedWS 1
  exact ⟨h.1, h.2.1 (by decide), h.2.2.2⟩

end PinkSync
